import Mathlib

/-!
Shallow embedding of `src/cohorts/load.py` (the `Cohort` class): a disk-backed
caching layer for per-sample variant loading and neoantigen derivation.

Modelling conventions:
  * The filesystem is a finite association list from paths (lists of path
    components, as produced by `os.path.join`) to file contents.
  * File contents are modelled by what the program can write or read:
    CSV bytes written by `DataFrame.to_csv`, pickle bytes written by
    `pickle.dump`, and source variant files parsed by the external
    collaborator `varcode.load_vcf_fast`.
  * Variant records are modelled as natural numbers (they only need to be
    hashable/comparable for set operations).
  * Python exceptions become the `Err` error type of an `Except` result:
    `assert` failures are `Err.invalidArgument` (the spec's InvalidArgument),
    a missing source file is `Err.missingData` (Python `IOError`, the spec's
    MissingData), a failed dict lookup is `Err.keyError`, and so on.
  * External collaborators (NetMHCcons, predict_epitopes_from_variants,
    epitopes_to_dataframe) are an opaque oracle parameter producing the
    per-sample epitope table.
-/

/-- Path in the filesystem, as a list of components joined by `os.path.join`. -/
abbrev FPath := List String

/-- Row of a pandas DataFrame: a `sample_id` column plus an opaque payload. -/
abbrev Row := String × Nat

/-- Tabular data (a pandas DataFrame) as an ordered list of rows. -/
abbrev Table := List Row

/-- Element of a varcode `VariantCollection`.  Python is dynamically typed, so
the constructor can be handed either variant records or whole sets of variant
records; both element shapes occur in `_load_single_sample_variants`. -/
inductive VCElem
  | var (v : Nat)
  | varSet (s : Finset Nat)
deriving DecidableEq

/-- A varcode `VariantCollection`: a set-like collection of elements. -/
structure VariantCollection where
  elements : Finset VCElem
deriving DecidableEq

/-- VariantCollection built from a set of variant records: its elements are
exactly those records. -/
def VariantCollection.ofSet (s : Finset Nat) : VariantCollection :=
  ⟨s.image VCElem.var⟩

/-- VariantCollection built from a list of sets of variant records (as in
`VariantCollection(combined_variants)` where `combined_variants` is the Python
list of loaded sets): its elements are the sets themselves. -/
def VariantCollection.ofSetList (l : List (Finset Nat)) : VariantCollection :=
  ⟨(l.map VCElem.varSet).toFinset⟩

/-- A Python value that can be stored in (and returned from) the cache. -/
inductive CacheValue
  | table (t : Table)
  | varColl (vc : VariantCollection)
  | obj (o : Nat)
deriving DecidableEq

/-- Contents of a file on disk. -/
inductive FileBytes
  | csvBytes (t : Table)
  | pklBytes (v : CacheValue)
  | srcBytes (s : Finset Nat)
deriving DecidableEq

/-- The filesystem: an association list from paths to file contents. -/
abbrev FS := List (FPath × FileBytes)

/-- Python exceptions raised by the code under `src/cohorts/load.py`. -/
inductive Err
  | invalidArgument (msg : String)
  | missingData (p : FPath)
  | keyError
  | indexError
  | typeError
  | valueError
  | deserialization
deriving DecidableEq

deriving instance DecidableEq for Except

/-- Read a file: the first entry at the given path, if any. -/
def fsRead : FS → FPath → Option FileBytes
  | [], _ => none
  | (q, b) :: rest, p => if q = p then some b else fsRead rest p

/-- Write a file, overwriting any previous entry at that path. -/
def fsWrite (fs : FS) (p : FPath) (b : FileBytes) : FS :=
  (p, b) :: fs.filter (fun e => !decide (e.1 = p))

/-- Python list indexing `l[i]` for a nonnegative index: raises `IndexError`
when out of range. -/
def pyGet (l : List α) (i : Nat) : Except Err α :=
  match l.get? i with
  | some a => .ok a
  | none => .error .indexError

/-- Python `"%s" % x` for an optional string: `None` prints as `"None"`. -/
def pyStrOpt : Option String → String
  | none => "None"
  | some s => s

/-- Core of `os.path.splitext`: the input is the reversed character list of a
file name, `acc` accumulates (in order) the characters seen after the last
dot.  The extension starts at the last dot provided some character strictly
before that dot is not a dot. -/
def pySplitextCore : List Char → List Char → List Char
  | [], _ => []
  | ch :: rest, acc =>
    if ch = '.' then
      if rest.any (fun d => !decide (d = '.')) then '.' :: acc else []
    else pySplitextCore rest (ch :: acc)

/-- Extension component of `os.path.splitext` applied to a file name (the
final path component). -/
def pyExt (s : String) : String :=
  String.mk (pySplitextCore s.data.reverse [])

/-- Whether `dir` is a component-wise prefix of `p`, i.e. `p` lies inside the
directory `dir` (`shutil.rmtree dir` removes exactly such files). -/
def pathIsUnder : FPath → FPath → Bool
  | [], _ => true
  | _ :: _, [] => false
  | d :: ds, x :: xs => decide (d = x) && pathIsUnder ds xs

/-- Python dict assignment `d[k] = v`: overwrite in place if the key exists,
else append at the end (insertion order preserved). -/
def dictInsert (d : List (String × CacheValue)) (k : String) (v : CacheValue) :
    List (String × CacheValue) :=
  if d.any (fun e => decide (e.1 = k)) then
    d.map (fun e => if e.1 = k then (k, v) else e)
  else d ++ [(k, v)]

/-- A file-format function: maps (sample_id, normal_bam_id, tumor_bam_id) to a
source file name. -/
abbrev FormatFunc := String → String → String → String

/-- Opaque model of the external prediction collaborators: given the variant
collection value, the sample's HLA alleles, the epitope lengths, the ic50
cutoff, the process limit and the file-record cap, produce the epitope table
(`epitopes_to_dataframe` output, before the `sample_id` column is stamped). -/
abbrev EpitopePredictor :=
  CacheValue → List String → List Nat → Nat → Nat → Option Nat → Table

/-- The `Cohort` class: configuration aggregate from `__init__`. -/
structure Cohort where
  data_dir : String
  cache_dir : String
  sample_ids : List String
  normal_bam_ids : List String
  tumor_bam_ids : List String
  hla_alleles : Option (List (List String)) := none
  cache_results : Bool := true
  snv_file_format_funcs : Option (List FormatFunc) := none
  indel_file_format_funcs : Option (List FormatFunc) := none

/-- The `variant_cache_name` attribute, set once in `__init__`. -/
def variant_cache_name : String := "cached-variants"

/-- The `neoantigen_cache_name` attribute, set once in `__init__`. -/
def neoantigen_cache_name : String := "cached-neoantigens"

/-- Lookup in the `variant_type_to_format_funcs` dict built in `__init__`:
the key "snv" (resp. "indel") is present exactly when the corresponding
format-function list was supplied. -/
def Cohort.variant_type_to_format_funcs (c : Cohort) (variant_type : String) :
    Option (List FormatFunc) :=
  if variant_type = "snv" then c.snv_file_format_funcs
  else if variant_type = "indel" then c.indel_file_format_funcs
  else none

/-- `Cohort.load_from_cache`: `None` when caching is disabled or the file is
absent; otherwise deserialize, by `pd.read_csv` when the extension is `.csv`
and by `pickle.load` otherwise. -/
def Cohort.load_from_cache (c : Cohort) (fs : FS)
    (cache_name sample_id file_name : String) : Except Err (Option CacheValue) :=
  if !c.cache_results then .ok none
  else
    match fsRead fs [c.cache_dir, cache_name, sample_id, file_name] with
    | none => .ok none
    | some bytes =>
      if pyExt file_name = ".csv" then
        match bytes with
        | .csvBytes t => .ok (some (.table t))
        | _ => .error .deserialization
      else
        match bytes with
        | .pklBytes v => .ok (some v)
        | _ => .error .deserialization

/-- `Cohort.save_to_cache`: no-op when caching is disabled; serializes with
`to_csv` when the value is a `pd.DataFrame` and with `pickle.dump` otherwise,
overwriting any existing entry. -/
def Cohort.save_to_cache (c : Cohort) (fs : FS) (obj : CacheValue)
    (cache_name sample_id file_name : String) : FS :=
  if !c.cache_results then fs
  else
    match obj with
    | .table t =>
        fsWrite fs [c.cache_dir, cache_name, sample_id, file_name] (.csvBytes t)
    | _ =>
        fsWrite fs [c.cache_dir, cache_name, sample_id, file_name] (.pklBytes obj)

/-- The collaborator `varcode.load_vcf_fast` followed by `set(variants.elements)`:
raises `IOError` (MissingData) when the file is absent, else yields the set of
variant records in the file. -/
def load_vcf_fast (fs : FS) (p : FPath) : Except Err (Finset Nat) :=
  match fsRead fs p with
  | none => .error (.missingData p)
  | some (.srcBytes s) => .ok s
  | some _ => .error .deserialization

/-- The loading loop of `_load_single_sample_variants`: for each format
function, compute the file name, resolve it under `data_dir`, load it and
collect the set of its variant records, in order. -/
def Cohort.load_combined_variants (c : Cohort) (fs : FS)
    (sample_id normal_bam_id tumor_bam_id : String) :
    List FormatFunc → Except Err (List (Finset Nat))
  | [] => .ok []
  | f :: rest =>
    match load_vcf_fast fs [c.data_dir, f sample_id normal_bam_id tumor_bam_id] with
    | .error e => .error e
    | .ok s =>
      match c.load_combined_variants fs sample_id normal_bam_id tumor_bam_id rest with
      | .error e => .error e
      | .ok sets => .ok (s :: sets)

/-- `Cohort._load_single_sample_variants`: cache-or-compute resolution of one
sample's merged variant collection.  Returns the resulting value together with
the filesystem after any cache write. -/
def Cohort.load_single_sample_variants (c : Cohort) (fs : FS) (sample_idx : Nat)
    (file_format_funcs : List FormatFunc) (variant_type : String)
    (merge_type : Option String) : Except Err (CacheValue × FS) :=
  match pyGet c.sample_ids sample_idx with
  | .error e => .error e
  | .ok sample_id =>
  match pyGet c.normal_bam_ids sample_idx with
  | .error e => .error e
  | .ok normal_bam_id =>
  match pyGet c.tumor_bam_ids sample_idx with
  | .error e => .error e
  | .ok tumor_bam_id =>
  let cached_file_name := variant_type ++ "-" ++ pyStrOpt merge_type ++ "-variants.pkl"
  match c.load_from_cache fs variant_cache_name sample_id cached_file_name with
  | .error e => .error e
  | .ok (some cached) => .ok (cached, fs)
  | .ok none =>
    match c.load_combined_variants fs sample_id normal_bam_id tumor_bam_id file_format_funcs with
    | .error e => .error e
    | .ok combined_variants =>
      let merged : Except Err VariantCollection :=
        if combined_variants.length = 1 then
          if merge_type = none then
            .ok (VariantCollection.ofSetList combined_variants)
          else
            .error (.invalidArgument "Cannot specify a merge type when there is nothing to merge")
        else
          if merge_type = some "union" ∨ merge_type = some "intersection" then
            match combined_variants with
            | [] => .error .typeError
            | s :: rest =>
              if merge_type = some "union" then
                .ok (VariantCollection.ofSet (rest.foldl (· ∪ ·) s))
              else
                .ok (VariantCollection.ofSet (rest.foldl (· ∩ ·) s))
          else .error (.invalidArgument ("Unknown merge type: " ++ pyStrOpt merge_type))
      match merged with
      | .error e => .error e
      | .ok merged_variants =>
        .ok (.varColl merged_variants,
             c.save_to_cache fs (.varColl merged_variants) variant_cache_name
               sample_id cached_file_name)

/-- Per-sample loop of `Cohort.load_variants`: `IOError` (MissingData) is
caught, the skip is reported (third component of the result collects the
printed diagnostics) and the loop continues; every other exception
propagates.  The dict accumulates successfully resolved samples. -/
def Cohort.load_variants_loop (c : Cohort) (variant_type : String)
    (merge_type : Option String) :
    List (Nat × String) → FS → List (String × CacheValue) → List String →
    Except Err (List (String × CacheValue) × FS × List String)
  | [], fs, acc, log => .ok (acc, fs, log)
  | (i, sample_id) :: rest, fs, acc, log =>
    match c.variant_type_to_format_funcs variant_type with
    | none => .error .keyError
    | some ffs =>
      match c.load_single_sample_variants fs i ffs variant_type merge_type with
      | .error (.missingData _) =>
          c.load_variants_loop variant_type merge_type rest fs acc
            (log ++ ["Variants did not exist for " ++ sample_id])
      | .error e => .error e
      | .ok (v, fs') =>
          c.load_variants_loop variant_type merge_type rest fs'
            (dictInsert acc sample_id v) log

/-- `Cohort.load_variants`: asserts the variant type, then resolves every
sample, skipping (with a diagnostic) samples whose source files are missing. -/
def Cohort.load_variants (c : Cohort) (fs : FS) (variant_type : String)
    (merge_type : Option String) :
    Except Err (List (String × CacheValue) × FS × List String) :=
  if variant_type = "snv" ∨ variant_type = "indel" then
    c.load_variants_loop variant_type merge_type c.sample_ids.enum fs [] []
  else .error (.invalidArgument ("Unknown variant type: " ++ variant_type))

/-- `Cohort._load_single_sample_neoantigens`: cache-or-compute resolution of
one sample's neoantigen table.  On a miss: look up the format functions
(`KeyError` if the variant type has none registered), resolve the merged
variants, fetch the sample's HLA alleles, run the prediction collaborators,
stamp every row with the sample id, cache and return. -/
def Cohort.load_single_sample_neoantigens (c : Cohort) (fs : FS)
    (predictor : EpitopePredictor) (sample_idx : Nat) (variant_type : String)
    (merge_type : Option String) (epitope_lengths : List Nat) (ic50_cutoff : Nat)
    (process_limit : Nat) (max_file_records : Option Nat) :
    Except Err (CacheValue × FS) :=
  match pyGet c.sample_ids sample_idx with
  | .error e => .error e
  | .ok sample_id =>
  let cached_file_name := variant_type ++ "-" ++ pyStrOpt merge_type ++ "-neoantigens.csv"
  match c.load_from_cache fs neoantigen_cache_name sample_id cached_file_name with
  | .error e => .error e
  | .ok (some cached) => .ok (cached, fs)
  | .ok none =>
    match c.variant_type_to_format_funcs variant_type with
    | none => .error .keyError
    | some ffs =>
      match c.load_single_sample_variants fs sample_idx ffs variant_type merge_type with
      | .error e => .error e
      | .ok (variants, fs1) =>
        match ((match c.hla_alleles with
                | none => .error Err.typeError
                | some l => pyGet l sample_idx) : Except Err (List String)) with
        | .error e => .error e
        | .ok hla_alleles =>
          let epitopes := predictor variants hla_alleles epitope_lengths
            ic50_cutoff process_limit max_file_records
          let df_epitopes := epitopes.map (fun r => (sample_id, r.2))
          .ok (.table df_epitopes,
               c.save_to_cache fs1 (.table df_epitopes) neoantigen_cache_name
                 sample_id cached_file_name)

/-- Per-sample loop of `Cohort.load_neoantigens`: no exception is caught, every
per-sample failure propagates; per-sample tables accumulate in order. -/
def Cohort.load_neoantigens_loop (c : Cohort) (predictor : EpitopePredictor)
    (variant_type : String) (merge_type : Option String)
    (epitope_lengths : List Nat) (ic50_cutoff : Nat) (process_limit : Nat)
    (max_file_records : Option Nat) :
    List (Nat × String) → FS → List CacheValue → Except Err (List CacheValue × FS)
  | [], fs, dfs => .ok (dfs, fs)
  | (i, _) :: rest, fs, dfs =>
    match c.load_single_sample_neoantigens fs predictor i variant_type merge_type
        epitope_lengths ic50_cutoff process_limit max_file_records with
    | .error e => .error e
    | .ok (df, fs') =>
        c.load_neoantigens_loop predictor variant_type merge_type epitope_lengths
          ic50_cutoff process_limit max_file_records rest fs' (dfs ++ [df])

/-- Coerce a value to a DataFrame for `pd.concat`: `TypeError` otherwise. -/
def as_table : CacheValue → Except Err Table
  | .table t => .ok t
  | _ => .error .typeError

/-- Collect the DataFrames of a list of values, failing on any non-DataFrame. -/
def collect_tables : List CacheValue → Except Err (List Table)
  | [] => .ok []
  | d :: rest =>
    match as_table d, collect_tables rest with
    | .ok t, .ok ts => .ok (t :: ts)
    | .error e, _ => .error e
    | _, .error e => .error e

/-- `pd.concat` over the accumulated per-sample results: raises `ValueError`
on an empty list and `TypeError` if some element is not a DataFrame;
otherwise concatenates the rows in order. -/
def pd_concat (dfs : List CacheValue) : Except Err Table :=
  if dfs.isEmpty then .error .valueError
  else
    match collect_tables dfs with
    | .error e => .error e
    | .ok ts => .ok ts.flatten

/-- `Cohort.load_neoantigens`: asserts that HLA alleles are configured, then
resolves every sample (propagating any failure) and concatenates the
per-sample tables. -/
def Cohort.load_neoantigens (c : Cohort) (fs : FS) (predictor : EpitopePredictor)
    (variant_type : String) (merge_type : Option String)
    (epitope_lengths : List Nat) (ic50_cutoff : Nat) (process_limit : Nat)
    (max_file_records : Option Nat) : Except Err (Table × FS) :=
  if c.hla_alleles = none then
    .error (.invalidArgument "Cannot predict neoantigens without HLA alleles")
  else
    match c.load_neoantigens_loop predictor variant_type merge_type epitope_lengths
        ic50_cutoff process_limit max_file_records c.sample_ids.enum fs [] with
    | .error e => .error e
    | .ok (dfs, fs') =>
      match pd_concat dfs with
      | .error e => .error e
      | .ok t => .ok (t, fs')

/-- `Cohort.clear_cache`: recursively delete the category subtree when it
exists; no-op otherwise. -/
def Cohort.clear_cache (c : Cohort) (fs : FS) (cache_name : String) : FS :=
  if fs.any (fun e => pathIsUnder [c.cache_dir, cache_name] e.1) then
    fs.filter (fun e => !pathIsUnder [c.cache_dir, cache_name] e.1)
  else fs

/-- `Cohort.clear_variant_cache`. -/
def Cohort.clear_variant_cache (c : Cohort) (fs : FS) : FS :=
  c.clear_cache fs variant_cache_name

/-- `Cohort.clear_neoantigen_cache`. -/
def Cohort.clear_neoantigen_cache (c : Cohort) (fs : FS) : FS :=
  c.clear_cache fs neoantigen_cache_name

/-- `Cohort.clear_caches`: clears both categories. -/
def Cohort.clear_caches (c : Cohort) (fs : FS) : FS :=
  c.clear_neoantigen_cache (c.clear_variant_cache fs)

/-! ## Helper lemmas -/

/-- Membership in a left fold of set unions (Python `set.union(*sets)`). -/
theorem mem_foldl_union (t : List (Finset Nat)) :
    ∀ (h0 : Finset Nat) (x : Nat),
      x ∈ t.foldl (· ∪ ·) h0 ↔ x ∈ h0 ∨ ∃ s, s ∈ t ∧ x ∈ s := by
  induction t with
  | nil => intro h0 x; simp
  | cons a t ih =>
    intro h0 x
    rw [List.foldl_cons, ih, Finset.mem_union]
    constructor
    · rintro ((hx | hx) | ⟨s, hs, hx⟩)
      · exact Or.inl hx
      · exact Or.inr ⟨a, List.mem_cons_self a t, hx⟩
      · exact Or.inr ⟨s, List.mem_cons_of_mem a hs, hx⟩
    · rintro (hx | ⟨s, hs, hx⟩)
      · exact Or.inl (Or.inl hx)
      · rcases List.mem_cons.mp hs with rfl | hs
        · exact Or.inl (Or.inr hx)
        · exact Or.inr ⟨s, hs, hx⟩

/-- Membership in a left fold of set intersections
(Python `set.intersection(*sets)`). -/
theorem mem_foldl_inter (t : List (Finset Nat)) :
    ∀ (h0 : Finset Nat) (x : Nat),
      x ∈ t.foldl (· ∩ ·) h0 ↔ x ∈ h0 ∧ ∀ s, s ∈ t → x ∈ s := by
  induction t with
  | nil => intro h0 x; simp
  | cons a t ih =>
    intro h0 x
    rw [List.foldl_cons, ih, Finset.mem_inter]
    constructor
    · rintro ⟨⟨hx0, hxa⟩, hall⟩
      refine ⟨hx0, ?_⟩
      intro s hs
      rcases List.mem_cons.mp hs with rfl | hs
      · exact hxa
      · exact hall s hs
    · rintro ⟨hx0, hall⟩
      exact ⟨⟨hx0, hall a (List.mem_cons_self a t)⟩,
             fun s hs => hall s (List.mem_cons_of_mem a hs)⟩

/-- The loading loop produces one raw set per format function. -/
theorem load_combined_variants_length (c : Cohort) (fs : FS)
    (sid nid tid : String) :
    ∀ (ffs : List FormatFunc) (sets : List (Finset Nat)),
      c.load_combined_variants fs sid nid tid ffs = .ok sets →
      sets.length = ffs.length := by
  intro ffs
  induction ffs with
  | nil =>
    intro sets h
    simp only [Cohort.load_combined_variants] at h
    cases h
    rfl
  | cons f rest ih =>
    intro sets h
    simp only [Cohort.load_combined_variants] at h
    cases hload : load_vcf_fast fs [c.data_dir, f sid nid tid] with
    | error e => rw [hload] at h; cases h
    | ok s =>
      rw [hload] at h
      cases hrest : c.load_combined_variants fs sid nid tid rest with
      | error e => rw [hrest] at h; cases h
      | ok sets' =>
        rw [hrest] at h
        cases h
        simp [ih sets' hrest]

/-- With caching disabled, `load_from_cache` always reports absent. -/
theorem load_from_cache_off (c : Cohort) (hoff : c.cache_results = false)
    (fs : FS) (cache_name sample_id file_name : String) :
    c.load_from_cache fs cache_name sample_id file_name = .ok none := by
  simp [Cohort.load_from_cache, hoff]

/-- With caching disabled, `save_to_cache` performs no filesystem write. -/
theorem save_to_cache_off (c : Cohort) (hoff : c.cache_results = false)
    (fs : FS) (obj : CacheValue) (cache_name sample_id file_name : String) :
    c.save_to_cache fs obj cache_name sample_id file_name = fs := by
  simp [Cohort.save_to_cache, hoff]

/-- With caching disabled, a successful single-sample variant resolution
leaves the filesystem unchanged. -/
theorem load_single_sample_variants_fs_off (c : Cohort)
    (hoff : c.cache_results = false) (fs : FS) (i : Nat) (ffs : List FormatFunc)
    (vt : String) (mt : Option String) (v : CacheValue) (fs' : FS)
    (h : c.load_single_sample_variants fs i ffs vt mt = .ok (v, fs')) :
    fs' = fs := by
  simp only [Cohort.load_single_sample_variants, load_from_cache_off c hoff,
    save_to_cache_off c hoff] at h
  split at h <;> try cases h
  split at h <;> try cases h
  split at h <;> try cases h
  split at h <;> try cases h
  split at h <;> try cases h
  rfl

/-- Inserting a fresh key into a Python dict appends the binding. -/
theorem dictInsert_fresh (d : List (String × CacheValue)) (k : String)
    (v : CacheValue) (hfresh : ∀ e ∈ d, e.1 ≠ k) :
    dictInsert d k v = d ++ [(k, v)] := by
  unfold dictInsert
  have : d.any (fun e => decide (e.1 = k)) = false := by
    rw [List.any_eq_false]
    intro e he
    simpa using hfresh e he
  simp [this]

/-- Splitting off the extension of a name that ends in `-variants.pkl`:
scanning from the end, the last dot is the one of `.pkl`. -/
theorem pySplitextCore_pkl (rest : List Char) :
    pySplitextCore (('l' :: 'k' :: 'p' :: '.' :: []) ++ ('s' :: rest)) []
      = ['.', 'p', 'k', 'l'] := by
  simp [pySplitextCore]

/-- The variant cache key always has extension `.pkl`, whatever the variant
type and merge type. -/
theorem pyExt_variants_pkl (a b : String) :
    pyExt (a ++ "-" ++ b ++ "-variants.pkl") = ".pkl" := by
  unfold pyExt
  have hdata : (a ++ "-" ++ b ++ "-variants.pkl").data
      = (a.data ++ '-' :: b.data) ++ "-variants.pkl".data := by
    simp [String.data_append]
  have hrev : "-variants.pkl".data.reverse
      = ('l' :: 'k' :: 'p' :: '.' :: []) ++
        ('s' :: ('t' :: 'n' :: 'a' :: 'i' :: 'r' :: 'a' :: 'v' :: '-' :: [])) := by
    decide
  rw [hdata, List.reverse_append, hrev]
  simp [pySplitextCore]

/-- The second components of `List.enumFrom` are the original list. -/
theorem enumFrom_map_snd (l : List α) :
    ∀ n, (List.enumFrom n l).map Prod.snd = l := by
  induction l with
  | nil => intro n; rfl
  | cons a t ih => intro n; simp only [List.enumFrom, List.map_cons, ih]

/-- The second components of `List.enum` are the original list. -/
theorem enum_map_snd_eq (l : List α) : l.enum.map Prod.snd = l :=
  enumFrom_map_snd l 0

/-- Two sibling directories share no files. -/
theorem pathIsUnder_disjoint (d a b : String) (p : FPath) (hab : a ≠ b)
    (h : pathIsUnder [d, a] p = true) : pathIsUnder [d, b] p = false := by
  cases p with
  | nil => simp [pathIsUnder] at h
  | cons x xs =>
    cases xs with
    | nil => simp [pathIsUnder] at h
    | cons y ys =>
      simp only [pathIsUnder, Bool.and_eq_true, decide_eq_true_eq] at h
      obtain ⟨hdx, hay, -⟩ := h
      simp only [pathIsUnder, Bool.and_eq_false_iff, decide_eq_false_iff_not]
      exact Or.inr (Or.inl fun hby => hab (hay.trans hby.symm))

/-! ## Shared concrete instances used by witnesses -/

/-- Format function mapping a sample to `<sample_id>.vcf`. -/
def fmt_main : FormatFunc := fun sample_id _ _ => sample_id ++ ".vcf"

/-- Format function mapping a sample to `<sample_id>.indels.vcf`. -/
def fmt_alt : FormatFunc := fun sample_id _ _ => sample_id ++ ".indels.vcf"

/-- A trivial prediction oracle producing one epitope row per call. -/
def predict_one : EpitopePredictor := fun _ _ _ _ _ _ => [("", 7)]

/-! ## Claim C8 -/

/-- C8: for every cohort constructed without HLA alleles, `load_neoantigens`
fails with the assertion-style InvalidArgument condition, for every filesystem
and every prediction collaborator — hence before any per-sample work and
before any file I/O. -/
theorem hla_precondition_blocks (c : Cohort) (predictor : EpitopePredictor)
    (vt : String) (mt : Option String) (el : List Nat) (ic pl : Nat)
    (mfr : Option Nat) (hhla : c.hla_alleles = none) :
    ∀ fs : FS, c.load_neoantigens fs predictor vt mt el ic pl mfr
      = .error (.invalidArgument "Cannot predict neoantigens without HLA alleles") := by
  intro fs
  simp [Cohort.load_neoantigens, hhla]

/-- Witness for C8: a one-sample cohort without HLA alleles, with its source
file present, still fails the HLA precondition. -/
theorem hla_precondition_blocks_witness :
    ({ data_dir := "data", cache_dir := "cache", sample_ids := ["s1"],
       normal_bam_ids := ["n1"], tumor_bam_ids := ["t1"],
       snv_file_format_funcs := some [fmt_main] } : Cohort).load_neoantigens
        [(["data", "s1.vcf"], .srcBytes ({1, 2, 3} : Finset Nat))]
        predict_one "snv" (some "union") [8, 9] 500 10 none
      = .error (.invalidArgument "Cannot predict neoantigens without HLA alleles") :=
  hla_precondition_blocks _ predict_one "snv" (some "union") [8, 9] 500 10 none rfl _

/-! ## Claim C9 -/

/-- C9: cache round-trip.  With caching enabled, `save_to_cache` followed by
`load_from_cache` at the same (category, sample, file name) returns the saved
value, both for a DataFrame under a `.csv` name and for a generic object
under a non-`.csv` name. -/
theorem cache_round_trip (c : Cohort) (fs : FS) (v : CacheValue)
    (cat sid name : String) (hon : c.cache_results = true)
    (hmatch : ((∃ t, v = .table t) ∧ pyExt name = ".csv") ∨
              ((∀ t, v ≠ .table t) ∧ pyExt name ≠ ".csv")) :
    c.load_from_cache (c.save_to_cache fs v cat sid name) cat sid name
      = .ok (some v) := by
  rcases hmatch with ⟨⟨t, rfl⟩, hcsv⟩ | ⟨hnt, hcsv⟩
  · simp [Cohort.save_to_cache, Cohort.load_from_cache, hon, hcsv, fsRead, fsWrite]
  · cases v with
    | table t => exact absurd rfl (hnt t)
    | varColl vc =>
      simp [Cohort.save_to_cache, Cohort.load_from_cache, hon, hcsv, fsRead, fsWrite]
    | obj o =>
      simp [Cohort.save_to_cache, Cohort.load_from_cache, hon, hcsv, fsRead, fsWrite]

/-- Witness for C9: a concrete table round-trips under a `.csv` name and a
concrete pickled object round-trips under a `.pkl` name. -/
theorem cache_round_trip_witness :
    ({ data_dir := "d", cache_dir := "c", sample_ids := ["s1"],
       normal_bam_ids := ["n1"], tumor_bam_ids := ["t1"] } : Cohort).load_from_cache
        (({ data_dir := "d", cache_dir := "c", sample_ids := ["s1"],
            normal_bam_ids := ["n1"], tumor_bam_ids := ["t1"] } : Cohort).save_to_cache
          [] (.table [("s1", 4)]) "cached-neoantigens" "s1" "snv-union-neoantigens.csv")
        "cached-neoantigens" "s1" "snv-union-neoantigens.csv"
      = .ok (some (.table [("s1", 4)])) ∧
    ({ data_dir := "d", cache_dir := "c", sample_ids := ["s1"],
       normal_bam_ids := ["n1"], tumor_bam_ids := ["t1"] } : Cohort).load_from_cache
        (({ data_dir := "d", cache_dir := "c", sample_ids := ["s1"],
            normal_bam_ids := ["n1"], tumor_bam_ids := ["t1"] } : Cohort).save_to_cache
          [] (.obj 42) "cached-variants" "s1" "snv-union-variants.pkl")
        "cached-variants" "s1" "snv-union-variants.pkl"
      = .ok (some (.obj 42)) :=
  ⟨cache_round_trip _ [] _ "cached-neoantigens" "s1" "snv-union-neoantigens.csv" rfl
      (Or.inl ⟨⟨[("s1", 4)], rfl⟩, by decide⟩),
   cache_round_trip _ [] _ "cached-variants" "s1" "snv-union-variants.pkl" rfl
      (Or.inr ⟨fun t h => CacheValue.noConfusion h, by decide⟩)⟩

/-! ## Claim C10 -/

/-- C10: clearing one cache category deletes exactly that category's subtree:
entries outside it survive, the result holds only surviving entries of the
original filesystem with nothing left under the category, clearing an absent
category is the identity (the existence guard means `rmtree` is never invoked
on a missing directory, so `clear_cache` never raises), and in particular
each of the two categories is untouched by clearing the other. -/
theorem clear_cache_isolated (c : Cohort) (fs : FS) (cache_name : String) :
    (∀ e ∈ fs, pathIsUnder [c.cache_dir, cache_name] e.1 = false →
       e ∈ c.clear_cache fs cache_name) ∧
    (∀ e ∈ c.clear_cache fs cache_name,
       e ∈ fs ∧ pathIsUnder [c.cache_dir, cache_name] e.1 = false) ∧
    ((∀ e ∈ fs, pathIsUnder [c.cache_dir, cache_name] e.1 = false) →
       c.clear_cache fs cache_name = fs) ∧
    (∀ e ∈ fs, pathIsUnder [c.cache_dir, neoantigen_cache_name] e.1 = true →
       e ∈ c.clear_variant_cache fs) ∧
    (∀ e ∈ fs, pathIsUnder [c.cache_dir, variant_cache_name] e.1 = true →
       e ∈ c.clear_neoantigen_cache fs) := by
  have hmem : ∀ e ∈ fs, pathIsUnder [c.cache_dir, cache_name] e.1 = false →
      e ∈ c.clear_cache fs cache_name := by
    intro e he hunder
    unfold Cohort.clear_cache
    split
    · exact List.mem_filter.mpr ⟨he, by simp [hunder]⟩
    · exact he
  have hmemVar : ∀ (nm : String), ∀ e ∈ fs,
      pathIsUnder [c.cache_dir, nm] e.1 = false → e ∈ c.clear_cache fs nm := by
    intro nm e he hunder
    unfold Cohort.clear_cache
    split
    · exact List.mem_filter.mpr ⟨he, by simp [hunder]⟩
    · exact he
  refine ⟨hmem, ?_, ?_, ?_, ?_⟩
  · intro e he
    unfold Cohort.clear_cache at he
    split at he
    · have := List.mem_filter.mp he
      refine ⟨this.1, ?_⟩
      have h2 := this.2
      simpa using h2
    · rename_i hguard
      rw [List.any_eq_true] at hguard
      push_neg at hguard
      refine ⟨he, ?_⟩
      have := hguard e he
      simpa using this
  · intro hall
    unfold Cohort.clear_cache
    split
    · rename_i hguard
      rw [List.any_eq_true] at hguard
      obtain ⟨e, he, hunder⟩ := hguard
      rw [hall e he] at hunder
      cases hunder
    · rfl
  · intro e he hunder
    exact hmemVar variant_cache_name e he
      (pathIsUnder_disjoint c.cache_dir neoantigen_cache_name variant_cache_name
        e.1 (by decide) hunder)
  · intro e he hunder
    exact hmemVar neoantigen_cache_name e he
      (pathIsUnder_disjoint c.cache_dir variant_cache_name neoantigen_cache_name
        e.1 (by decide) hunder)

/-- Witness for C10: on a filesystem holding one variant-cache entry and one
neoantigen-cache entry, clearing the variant category keeps the neoantigen
entry, and clearing an absent category is the identity. -/
theorem clear_cache_isolated_witness :
    ((["cache", "cached-neoantigens", "s1", "snv-union-neoantigens.csv"],
        FileBytes.csvBytes [("s1", 4)]) ∈
      ({ data_dir := "d", cache_dir := "cache", sample_ids := ["s1"],
         normal_bam_ids := ["n1"], tumor_bam_ids := ["t1"] } : Cohort).clear_variant_cache
        [(["cache", "cached-variants", "s1", "snv-union-variants.pkl"],
            FileBytes.pklBytes (.obj 1)),
         (["cache", "cached-neoantigens", "s1", "snv-union-neoantigens.csv"],
            FileBytes.csvBytes [("s1", 4)])]) ∧
    (({ data_dir := "d", cache_dir := "cache", sample_ids := ["s1"],
        normal_bam_ids := ["n1"], tumor_bam_ids := ["t1"] } : Cohort).clear_cache
        [(["data", "s1.vcf"], FileBytes.srcBytes ({1} : Finset Nat))] "cached-variants"
      = [(["data", "s1.vcf"], FileBytes.srcBytes ({1} : Finset Nat))]) :=
  ⟨(clear_cache_isolated
      { data_dir := "d", cache_dir := "cache", sample_ids := ["s1"],
        normal_bam_ids := ["n1"], tumor_bam_ids := ["t1"] }
      [(["cache", "cached-variants", "s1", "snv-union-variants.pkl"],
          FileBytes.pklBytes (.obj 1)),
       (["cache", "cached-neoantigens", "s1", "snv-union-neoantigens.csv"],
          FileBytes.csvBytes [("s1", 4)])] variant_cache_name).2.2.2.1 _
      (by decide) (by decide),
   (clear_cache_isolated
      { data_dir := "d", cache_dir := "cache", sample_ids := ["s1"],
        normal_bam_ids := ["n1"], tumor_bam_ids := ["t1"] }
      [(["data", "s1.vcf"], FileBytes.srcBytes ({1} : Finset Nat))]
      "cached-variants").2.2.1 (by decide)⟩

/-! ## Claim C7 -/

/-- C7: the cache lookup in `_load_single_sample_variants` precedes every
validation and every source-file read.  If a pickled entry exists at the key
`<variant_type>-<merge_type>-variants.pkl`, the cached value is returned as
is, for every list of format functions (none is invoked), for every merge
type (even one that would fail validation), and the filesystem is returned
unchanged (no write, and the conclusion is fully determined without looking
at any source file). -/
theorem cache_hit_short_circuits (c : Cohort) (fs : FS) (i : Nat)
    (ffs : List FormatFunc) (vt : String) (mt : Option String)
    (sid nid tid : String) (v : CacheValue)
    (hsid : pyGet c.sample_ids i = .ok sid)
    (hnid : pyGet c.normal_bam_ids i = .ok nid)
    (htid : pyGet c.tumor_bam_ids i = .ok tid)
    (hon : c.cache_results = true)
    (hentry : fsRead fs [c.cache_dir, variant_cache_name, sid,
        vt ++ "-" ++ pyStrOpt mt ++ "-variants.pkl"] = some (.pklBytes v)) :
    c.load_single_sample_variants fs i ffs vt mt = .ok (v, fs) := by
  have hext := pyExt_variants_pkl vt (pyStrOpt mt)
  simp only [Cohort.load_single_sample_variants, hsid, hnid, htid,
    Cohort.load_from_cache, hon, hentry, hext]
  simp

/-- Witness for C7: a cohort with one format function and an invalid merge
type (`union` is rejected for a single source on a miss) still returns the
pre-existing cached collection, and the source file for the format function
is absent, so no source file could have been read. -/
theorem cache_hit_short_circuits_witness :
    ({ data_dir := "data", cache_dir := "cache", sample_ids := ["s1"],
       normal_bam_ids := ["n1"], tumor_bam_ids := ["t1"],
       snv_file_format_funcs := some [fmt_main] } : Cohort).load_single_sample_variants
        [(["cache", "cached-variants", "s1", "snv-union-variants.pkl"],
            .pklBytes (.varColl (VariantCollection.ofSet ({5} : Finset Nat))))]
        0 [fmt_main] "snv" (some "union")
      = .ok (.varColl (VariantCollection.ofSet ({5} : Finset Nat)),
          [(["cache", "cached-variants", "s1", "snv-union-variants.pkl"],
              .pklBytes (.varColl (VariantCollection.ofSet ({5} : Finset Nat))))]) :=
  cache_hit_short_circuits _ _ 0 [fmt_main] "snv" (some "union") "s1" "n1" "t1" _
    rfl rfl rfl rfl (by decide)

/-! ## Claim C1 -/

/-- C1 (code bug): with exactly one configured format function and the
required `merge_type = None`, on a cache miss the code evaluates
`VariantCollection(combined_variants)` — wrapping the Python *list* holding
the single loaded set — so the resulting collection's single element is the
raw set itself, not the variant records of that set.  The second conjunct
shows this differs from the collection of the records. -/
theorem single_source_wraps_list_of_sets :
    ({ data_dir := "data", cache_dir := "cache", sample_ids := ["s1"],
       normal_bam_ids := ["n1"], tumor_bam_ids := ["t1"],
       snv_file_format_funcs := some [fmt_main] } : Cohort).load_single_sample_variants
        [(["data", "s1.vcf"], .srcBytes ({1, 2, 3} : Finset Nat))]
        0 [fmt_main] "snv" none
      = .ok (.varColl (VariantCollection.ofSetList [({1, 2, 3} : Finset Nat)]),
          [(["cache", "cached-variants", "s1", "snv-None-variants.pkl"],
              .pklBytes (.varColl (VariantCollection.ofSetList [({1, 2, 3} : Finset Nat)]))),
           (["data", "s1.vcf"], .srcBytes ({1, 2, 3} : Finset Nat))])
    ∧ VariantCollection.ofSetList [({1, 2, 3} : Finset Nat)]
        ≠ VariantCollection.ofSet ({1, 2, 3} : Finset Nat) := by
  constructor
  · decide
  · decide

/-! ## Claim C3 -/

/-- Does the computation fail with an assertion-style InvalidArgument? -/
def failsInvalidArgument : Except Err α → Bool
  | .error (.invalidArgument _) => true
  | _ => false

/-- Counterexample for C3: requesting the unsupported variant type `"sv"` on
the neoantigen derivation path of a fully configured cohort (HLA alleles
present, snv format functions registered, empty cache) fails with a dict
`KeyError`, not with an InvalidArgument condition, so not every
variant-resolving path fails with InvalidArgument. -/
theorem unknown_variant_type_not_invalid_argument_on_neoantigen_path :
    ({ data_dir := "data", cache_dir := "cache", sample_ids := ["s1"],
       normal_bam_ids := ["n1"], tumor_bam_ids := ["t1"],
       hla_alleles := some [["HLA-A*02:01"]],
       snv_file_format_funcs := some [fmt_main] } : Cohort).load_neoantigens
        [(["data", "s1.vcf"], .srcBytes ({1, 2, 3} : Finset Nat))]
        predict_one "sv" (some "union") [8, 9] 500 10 none
      = .error Err.keyError
    ∧ failsInvalidArgument
        (({ data_dir := "data", cache_dir := "cache", sample_ids := ["s1"],
            normal_bam_ids := ["n1"], tumor_bam_ids := ["t1"],
            hla_alleles := some [["HLA-A*02:01"]],
            snv_file_format_funcs := some [fmt_main] } : Cohort).load_neoantigens
          [(["data", "s1.vcf"], .srcBytes ({1, 2, 3} : Finset Nat))]
          predict_one "sv" (some "union") [8, 9] 500 10 none) = false := by
  constructor
  · decide
  · decide

/-- C3 as amended: for a variant type outside {snv, indel},
`load_variants` fails with the assertion-style InvalidArgument; the
neoantigen derivation path instead fails with a dict `KeyError` on any
cache miss (the format-function table has no entry for such a type). -/
theorem unknown_variant_type_amended (c : Cohort) (fs : FS)
    (predictor : EpitopePredictor) (vt : String) (mt : Option String)
    (el : List Nat) (ic pl : Nat) (mfr : Option Nat)
    (hvt1 : vt ≠ "snv") (hvt2 : vt ≠ "indel") :
    (c.load_variants fs vt mt
       = .error (.invalidArgument ("Unknown variant type: " ++ vt)))
    ∧ (∀ (i : Nat) (sid : String),
        pyGet c.sample_ids i = .ok sid →
        c.load_from_cache fs neoantigen_cache_name sid
            (vt ++ "-" ++ pyStrOpt mt ++ "-neoantigens.csv") = .ok none →
        c.load_single_sample_neoantigens fs predictor i vt mt el ic pl mfr
          = .error .keyError) := by
  constructor
  · simp [Cohort.load_variants, hvt1, hvt2]
  · intro i sid hsid hcache
    simp [Cohort.load_single_sample_neoantigens, hsid, hcache,
      Cohort.variant_type_to_format_funcs, hvt1, hvt2]

/-- Witness for the amended C3: the concrete variant type `"sv"` fails
`load_variants` with InvalidArgument and fails the (cache-missing)
single-sample neoantigen resolution with KeyError. -/
theorem unknown_variant_type_amended_witness :
    ({ data_dir := "data", cache_dir := "cache", sample_ids := ["s1"],
       normal_bam_ids := ["n1"], tumor_bam_ids := ["t1"],
       hla_alleles := some [["HLA-A*02:01"]],
       snv_file_format_funcs := some [fmt_main] } : Cohort).load_variants
        [] "sv" (some "union")
      = .error (.invalidArgument ("Unknown variant type: " ++ "sv"))
    ∧ ({ data_dir := "data", cache_dir := "cache", sample_ids := ["s1"],
         normal_bam_ids := ["n1"], tumor_bam_ids := ["t1"],
         hla_alleles := some [["HLA-A*02:01"]],
         snv_file_format_funcs := some [fmt_main] } : Cohort).load_single_sample_neoantigens
        [] predict_one 0 "sv" (some "union") [8, 9] 500 10 none
      = .error .keyError :=
  ⟨(unknown_variant_type_amended _ [] predict_one "sv" (some "union") [8, 9] 500 10 none
      (by decide) (by decide)).1,
   (unknown_variant_type_amended _ [] predict_one "sv" (some "union") [8, 9] 500 10 none
      (by decide) (by decide)).2 0 "s1" rfl (by decide)⟩

/-! ## Claim C2 -/

/-- C2: with two or more format functions, on a cache miss, merge type
`union` yields the set-union of all raw-loaded sets and `intersection` their
set-intersection, each wrapped as a collection of the resulting records.  The
membership equivalences state that the folded set is exactly the union
(resp. intersection) over the whole list of loaded sets. -/
theorem multi_source_merge_correct (c : Cohort) (fs : FS) (i : Nat)
    (ffs : List FormatFunc) (vt : String) (sid nid tid : String)
    (s0 : Finset Nat) (rest : List (Finset Nat))
    (hsid : pyGet c.sample_ids i = .ok sid)
    (hnid : pyGet c.normal_bam_ids i = .ok nid)
    (htid : pyGet c.tumor_bam_ids i = .ok tid)
    (hcu : c.load_from_cache fs variant_cache_name sid
        (vt ++ "-" ++ pyStrOpt (some "union") ++ "-variants.pkl") = .ok none)
    (hci : c.load_from_cache fs variant_cache_name sid
        (vt ++ "-" ++ pyStrOpt (some "intersection") ++ "-variants.pkl") = .ok none)
    (hload : c.load_combined_variants fs sid nid tid ffs = .ok (s0 :: rest))
    (hlen : 2 ≤ ffs.length) :
    (c.load_single_sample_variants fs i ffs vt (some "union")
        = .ok (.varColl (VariantCollection.ofSet (rest.foldl (· ∪ ·) s0)),
            c.save_to_cache fs
              (.varColl (VariantCollection.ofSet (rest.foldl (· ∪ ·) s0)))
              variant_cache_name sid
              (vt ++ "-" ++ pyStrOpt (some "union") ++ "-variants.pkl"))
      ∧ ∀ x, x ∈ rest.foldl (· ∪ ·) s0 ↔ ∃ s, s ∈ (s0 :: rest) ∧ x ∈ s) ∧
    (c.load_single_sample_variants fs i ffs vt (some "intersection")
        = .ok (.varColl (VariantCollection.ofSet (rest.foldl (· ∩ ·) s0)),
            c.save_to_cache fs
              (.varColl (VariantCollection.ofSet (rest.foldl (· ∩ ·) s0)))
              variant_cache_name sid
              (vt ++ "-" ++ pyStrOpt (some "intersection") ++ "-variants.pkl"))
      ∧ ∀ x, x ∈ rest.foldl (· ∩ ·) s0 ↔ ∀ s, s ∈ (s0 :: rest) → x ∈ s) := by
  have hlength := load_combined_variants_length c fs sid nid tid ffs (s0 :: rest) hload
  have hne1 : ¬((s0 :: rest).length = 1) := by
    rw [hlength]; omega
  refine ⟨⟨?_, ?_⟩, ⟨?_, ?_⟩⟩
  · simp only [Cohort.load_single_sample_variants, hsid, hnid, htid, hcu, hload,
      hne1, if_false]
    simp
  · intro x
    rw [mem_foldl_union]
    constructor
    · rintro (hx | ⟨s, hs, hx⟩)
      · exact ⟨s0, List.mem_cons_self s0 rest, hx⟩
      · exact ⟨s, List.mem_cons_of_mem s0 hs, hx⟩
    · rintro ⟨s, hs, hx⟩
      rcases List.mem_cons.mp hs with rfl | hs
      · exact Or.inl hx
      · exact Or.inr ⟨s, hs, hx⟩
  · simp only [Cohort.load_single_sample_variants, hsid, hnid, htid, hci, hload,
      hne1, if_false]
    simp
  · intro x
    rw [mem_foldl_inter]
    constructor
    · rintro ⟨hx0, hall⟩
      intro s hs
      rcases List.mem_cons.mp hs with rfl | hs
      · exact hx0
      · exact hall s hs
    · intro hall
      exact ⟨hall s0 (List.mem_cons_self s0 rest),
             fun s hs => hall s (List.mem_cons_of_mem s0 hs)⟩

/-- Witness for C2: two format functions loading raw sets `{1,2,3}` (for A,B,C)
and `{2,3,4}` (for B,C,D): union merge resolves to the records `{1,2,3,4}` and
intersection merge to `{2,3}`. -/
theorem multi_source_merge_correct_witness :
    ({ data_dir := "data", cache_dir := "cache", sample_ids := ["s1"],
       normal_bam_ids := ["n1"], tumor_bam_ids := ["t1"],
       snv_file_format_funcs := some [fmt_main, fmt_alt] } : Cohort).load_single_sample_variants
        [(["data", "s1.vcf"], .srcBytes ({1, 2, 3} : Finset Nat)),
         (["data", "s1.indels.vcf"], .srcBytes ({2, 3, 4} : Finset Nat))]
        0 [fmt_main, fmt_alt] "snv" (some "union")
      = .ok (.varColl (VariantCollection.ofSet ({1, 2, 3, 4} : Finset Nat)),
          fsWrite
            [(["data", "s1.vcf"], .srcBytes ({1, 2, 3} : Finset Nat)),
             (["data", "s1.indels.vcf"], .srcBytes ({2, 3, 4} : Finset Nat))]
            ["cache", "cached-variants", "s1", "snv-union-variants.pkl"]
            (.pklBytes (.varColl (VariantCollection.ofSet ({1, 2, 3, 4} : Finset Nat)))))
    ∧ ({ data_dir := "data", cache_dir := "cache", sample_ids := ["s1"],
         normal_bam_ids := ["n1"], tumor_bam_ids := ["t1"],
         snv_file_format_funcs := some [fmt_main, fmt_alt] } : Cohort).load_single_sample_variants
        [(["data", "s1.vcf"], .srcBytes ({1, 2, 3} : Finset Nat)),
         (["data", "s1.indels.vcf"], .srcBytes ({2, 3, 4} : Finset Nat))]
        0 [fmt_main, fmt_alt] "snv" (some "intersection")
      = .ok (.varColl (VariantCollection.ofSet ({2, 3} : Finset Nat)),
          fsWrite
            [(["data", "s1.vcf"], .srcBytes ({1, 2, 3} : Finset Nat)),
             (["data", "s1.indels.vcf"], .srcBytes ({2, 3, 4} : Finset Nat))]
            ["cache", "cached-variants", "s1", "snv-intersection-variants.pkl"]
            (.pklBytes (.varColl (VariantCollection.ofSet ({2, 3} : Finset Nat))))) := by
  have h := multi_source_merge_correct
    { data_dir := "data", cache_dir := "cache", sample_ids := ["s1"],
      normal_bam_ids := ["n1"], tumor_bam_ids := ["t1"],
      snv_file_format_funcs := some [fmt_main, fmt_alt] }
    [(["data", "s1.vcf"], .srcBytes ({1, 2, 3} : Finset Nat)),
     (["data", "s1.indels.vcf"], .srcBytes ({2, 3, 4} : Finset Nat))]
    0 [fmt_main, fmt_alt] "snv" "s1" "n1" "t1"
    ({1, 2, 3} : Finset Nat) [({2, 3, 4} : Finset Nat)]
    rfl rfl rfl (by decide) (by decide) (by decide) (by decide)
  refine ⟨h.1.1.trans (by decide), h.2.1.trans (by decide)⟩

/-! ## Claim C4 -/

/-- C4: on a cache miss (with all raw loads succeeding), the merge-type
validation of `_load_single_sample_variants` fails with the assertion-style
InvalidArgument whenever the merge type does not match the number of
configured format functions: exactly one format function requires the `None`
sentinel, and two or more require `union` or `intersection`. -/
theorem merge_type_validation (c : Cohort) (fs : FS) (i : Nat)
    (ffs : List FormatFunc) (vt : String) (mt : Option String)
    (sid nid tid : String) (sets : List (Finset Nat))
    (hsid : pyGet c.sample_ids i = .ok sid)
    (hnid : pyGet c.normal_bam_ids i = .ok nid)
    (htid : pyGet c.tumor_bam_ids i = .ok tid)
    (hcache : c.load_from_cache fs variant_cache_name sid
        (vt ++ "-" ++ pyStrOpt mt ++ "-variants.pkl") = .ok none)
    (hload : c.load_combined_variants fs sid nid tid ffs = .ok sets) :
    (ffs.length = 1 → mt ≠ none →
       c.load_single_sample_variants fs i ffs vt mt
         = .error (.invalidArgument
             "Cannot specify a merge type when there is nothing to merge")) ∧
    (2 ≤ ffs.length → mt ≠ some "union" → mt ≠ some "intersection" →
       c.load_single_sample_variants fs i ffs vt mt
         = .error (.invalidArgument ("Unknown merge type: " ++ pyStrOpt mt))) := by
  have hlength := load_combined_variants_length c fs sid nid tid ffs sets hload
  constructor
  · intro hone hmt
    have hlen1 : sets.length = 1 := by rw [hlength, hone]
    simp only [Cohort.load_single_sample_variants, hsid, hnid, htid, hcache, hload,
      hlen1, if_true, hmt]
    simp [hmt]
  · intro htwo hmu hmi
    have hlen1 : ¬(sets.length = 1) := by rw [hlength]; omega
    simp only [Cohort.load_single_sample_variants, hsid, hnid, htid, hcache, hload,
      hlen1, if_false]
    simp [hmu, hmi]

/-- Witness for C4: with one format function, merge type `union` fails; with
two format functions, merge type `None` fails; both with the InvalidArgument
assertion message of the code. -/
theorem merge_type_validation_witness :
    ({ data_dir := "data", cache_dir := "cache", sample_ids := ["s1"],
       normal_bam_ids := ["n1"], tumor_bam_ids := ["t1"],
       snv_file_format_funcs := some [fmt_main] } : Cohort).load_single_sample_variants
        [(["data", "s1.vcf"], .srcBytes ({1, 2, 3} : Finset Nat)),
         (["data", "s1.indels.vcf"], .srcBytes ({2, 3, 4} : Finset Nat))]
        0 [fmt_main] "snv" (some "union")
      = .error (.invalidArgument
          "Cannot specify a merge type when there is nothing to merge")
    ∧ ({ data_dir := "data", cache_dir := "cache", sample_ids := ["s1"],
         normal_bam_ids := ["n1"], tumor_bam_ids := ["t1"],
         snv_file_format_funcs := some [fmt_main, fmt_alt] } : Cohort).load_single_sample_variants
        [(["data", "s1.vcf"], .srcBytes ({1, 2, 3} : Finset Nat)),
         (["data", "s1.indels.vcf"], .srcBytes ({2, 3, 4} : Finset Nat))]
        0 [fmt_main, fmt_alt] "snv" none
      = .error (.invalidArgument ("Unknown merge type: " ++ pyStrOpt none)) :=
  ⟨(merge_type_validation
      { data_dir := "data", cache_dir := "cache", sample_ids := ["s1"],
        normal_bam_ids := ["n1"], tumor_bam_ids := ["t1"],
        snv_file_format_funcs := some [fmt_main] }
      [(["data", "s1.vcf"], .srcBytes ({1, 2, 3} : Finset Nat)),
       (["data", "s1.indels.vcf"], .srcBytes ({2, 3, 4} : Finset Nat))]
      0 [fmt_main] "snv" (some "union") "s1" "n1" "t1"
      [({1, 2, 3} : Finset Nat)] rfl rfl rfl (by decide) (by decide)).1
      rfl (by decide),
   (merge_type_validation
      { data_dir := "data", cache_dir := "cache", sample_ids := ["s1"],
        normal_bam_ids := ["n1"], tumor_bam_ids := ["t1"],
        snv_file_format_funcs := some [fmt_main, fmt_alt] }
      [(["data", "s1.vcf"], .srcBytes ({1, 2, 3} : Finset Nat)),
       (["data", "s1.indels.vcf"], .srcBytes ({2, 3, 4} : Finset Nat))]
      0 [fmt_main, fmt_alt] "snv" none "s1" "n1" "t1"
      [({1, 2, 3} : Finset Nat), ({2, 3, 4} : Finset Nat)] rfl rfl rfl
      (by decide) (by decide)).2 (by decide) (by decide) (by decide)⟩

/-! ## Claim C6 -/

/-- Collecting tables from a list of DataFrames succeeds with the tables. -/
theorem collect_tables_map (ts : List Table) :
    collect_tables (ts.map CacheValue.table) = .ok ts := by
  induction ts with
  | nil => rfl
  | cons t rest ih => simp [collect_tables, as_table, ih]

/-- `pd.concat` over a nonempty list of DataFrames concatenates their rows. -/
theorem pd_concat_map_table (ts : List Table) (hne : ts ≠ []) :
    pd_concat (ts.map CacheValue.table) = .ok ts.flatten := by
  cases ts with
  | nil => exact absurd rfl hne
  | cons t rest =>
    unfold pd_concat
    rw [if_neg (by simp), collect_tables_map]

/-- If every sample in the remaining list resolves to a table leaving the
filesystem unchanged, the neoantigen loop returns all tables in order. -/
theorem load_neoantigens_loop_all_ok (c : Cohort) (predictor : EpitopePredictor)
    (vt : String) (mt : Option String) (el : List Nat) (ic pl : Nat)
    (mfr : Option Nat) (fs : FS) (tbl : Nat × String → Table) :
    ∀ (l : List (Nat × String)) (dfs : List CacheValue),
      (∀ p ∈ l, c.load_single_sample_neoantigens fs predictor p.1 vt mt el ic pl mfr
         = .ok (.table (tbl p), fs)) →
      c.load_neoantigens_loop predictor vt mt el ic pl mfr l fs dfs
        = .ok (dfs ++ l.map (fun p => .table (tbl p)), fs) := by
  intro l
  induction l with
  | nil => intro dfs _; simp [Cohort.load_neoantigens_loop]
  | cons p rest ih =>
    intro dfs hall
    obtain ⟨i, sid⟩ := p
    have hp := hall (i, sid) (List.mem_cons_self _ _)
    simp only [Cohort.load_neoantigens_loop, hp]
    rw [ih (dfs ++ [CacheValue.table (tbl (i, sid))])
        (fun q hq => hall q (List.mem_cons_of_mem _ hq))]
    simp

/-- If every sample before `p` resolves to a table leaving the filesystem
unchanged and `p` itself fails, the neoantigen loop fails with that error. -/
theorem load_neoantigens_loop_first_error (c : Cohort)
    (predictor : EpitopePredictor) (vt : String) (mt : Option String)
    (el : List Nat) (ic pl : Nat) (mfr : Option Nat) (fs : FS) (e : Err) :
    ∀ (l1 : List (Nat × String)) (p : Nat × String) (l2 : List (Nat × String))
      (dfs : List CacheValue),
      (∀ q ∈ l1, ∃ t, c.load_single_sample_neoantigens fs predictor q.1 vt mt el ic pl mfr
         = .ok (.table t, fs)) →
      c.load_single_sample_neoantigens fs predictor p.1 vt mt el ic pl mfr = .error e →
      c.load_neoantigens_loop predictor vt mt el ic pl mfr (l1 ++ p :: l2) fs dfs
        = .error e := by
  intro l1
  induction l1 with
  | nil =>
    intro p l2 dfs _ hp
    obtain ⟨i, sid⟩ := p
    simp only [List.nil_append, Cohort.load_neoantigens_loop, hp]
  | cons q rest ih =>
    intro p l2 dfs hall hp
    obtain ⟨i, sid⟩ := q
    obtain ⟨t, ht⟩ := hall (i, sid) (List.mem_cons_self _ _)
    simp only [List.cons_append, Cohort.load_neoantigens_loop, ht]
    exact ih p l2 _ (fun q' hq' => hall q' (List.mem_cons_of_mem _ hq')) hp

/-- C6: cohort-level `load_neoantigens` has no per-sample failure isolation:
whenever the samples before some sample all succeed and that sample's
resolution fails (for instance with MissingData), the whole cohort operation
fails with the same error; and when every sample succeeds, the result is the
in-order concatenation of all per-sample tables. -/
theorem load_neoantigens_no_isolation (c : Cohort) (fs : FS)
    (predictor : EpitopePredictor) (vt : String) (mt : Option String)
    (el : List Nat) (ic pl : Nat) (mfr : Option Nat)
    (tbl : Nat × String → Table)
    (hhla : ¬(c.hla_alleles = none)) :
    ((c.sample_ids ≠ []) →
     (∀ p ∈ c.sample_ids.enum,
        c.load_single_sample_neoantigens fs predictor p.1 vt mt el ic pl mfr
          = .ok (.table (tbl p), fs)) →
     c.load_neoantigens fs predictor vt mt el ic pl mfr
       = .ok ((c.sample_ids.enum.map tbl).flatten, fs)) ∧
    (∀ (l1 : List (Nat × String)) (p : Nat × String) (l2 : List (Nat × String))
       (e : Err),
      c.sample_ids.enum = l1 ++ p :: l2 →
      (∀ q ∈ l1, ∃ t, c.load_single_sample_neoantigens fs predictor q.1 vt mt el ic pl mfr
         = .ok (.table t, fs)) →
      c.load_single_sample_neoantigens fs predictor p.1 vt mt el ic pl mfr
        = .error e →
      c.load_neoantigens fs predictor vt mt el ic pl mfr = .error e) := by
  constructor
  · intro hne hall
    unfold Cohort.load_neoantigens
    rw [if_neg hhla]
    rw [load_neoantigens_loop_all_ok c predictor vt mt el ic pl mfr fs tbl
        c.sample_ids.enum [] hall]
    have hmap : c.sample_ids.enum.map (fun p => CacheValue.table (tbl p))
        = (c.sample_ids.enum.map tbl).map CacheValue.table := by
      rw [List.map_map]; rfl
    have henum : c.sample_ids.enum.map tbl ≠ [] := by
      intro habs
      have h1 : c.sample_ids.enum = [] := List.map_eq_nil_iff.mp habs
      have h2 := enum_map_snd_eq c.sample_ids
      rw [h1] at h2
      exact hne h2.symm
    simp only [List.nil_append, hmap]
    rw [pd_concat_map_table _ henum]
  · intro l1 p l2 e hsplit hbefore hp
    unfold Cohort.load_neoantigens
    rw [if_neg hhla, hsplit]
    rw [load_neoantigens_loop_first_error c predictor vt mt el ic pl mfr fs e
        l1 p l2 [] hbefore hp]

/-- Witness for C6: a healthy one-sample cohort concatenates its single
per-sample table; a two-sample cohort whose second source file is absent
propagates the MissingData failure and aborts the whole operation. -/
theorem load_neoantigens_no_isolation_witness :
    ({ data_dir := "data", cache_dir := "cache", sample_ids := ["s1"],
       normal_bam_ids := ["n1"], tumor_bam_ids := ["t1"],
       hla_alleles := some [["HLA-A*02:01"]], cache_results := false,
       snv_file_format_funcs := some [fmt_main] } : Cohort).load_neoantigens
        [(["data", "s1.vcf"], .srcBytes ({1} : Finset Nat))]
        predict_one "snv" none [8, 9] 500 10 none
      = .ok ([("s1", 7)], [(["data", "s1.vcf"], .srcBytes ({1} : Finset Nat))])
    ∧ ({ data_dir := "data", cache_dir := "cache", sample_ids := ["s1", "s2"],
         normal_bam_ids := ["n1", "n2"], tumor_bam_ids := ["t1", "t2"],
         hla_alleles := some [["HLA-A*02:01"], ["HLA-B*07:02"]], cache_results := false,
         snv_file_format_funcs := some [fmt_main] } : Cohort).load_neoantigens
        [(["data", "s1.vcf"], .srcBytes ({1} : Finset Nat))]
        predict_one "snv" none [8, 9] 500 10 none
      = .error (.missingData ["data", "s2.vcf"]) := by
  constructor
  · refine ((load_neoantigens_no_isolation
      { data_dir := "data", cache_dir := "cache", sample_ids := ["s1"],
        normal_bam_ids := ["n1"], tumor_bam_ids := ["t1"],
        hla_alleles := some [["HLA-A*02:01"]], cache_results := false,
        snv_file_format_funcs := some [fmt_main] }
      [(["data", "s1.vcf"], .srcBytes ({1} : Finset Nat))]
      predict_one "snv" none [8, 9] 500 10 none
      (fun _ => [("s1", 7)]) (by decide)).1 (by decide) ?_).trans (by decide)
    intro p hp
    have henum : (["s1"] : List String).enum = [(0, "s1")] := by decide
    rw [henum] at hp
    rcases List.mem_singleton.mp hp with rfl
    decide
  · exact (load_neoantigens_no_isolation
      { data_dir := "data", cache_dir := "cache", sample_ids := ["s1", "s2"],
        normal_bam_ids := ["n1", "n2"], tumor_bam_ids := ["t1", "t2"],
        hla_alleles := some [["HLA-A*02:01"], ["HLA-B*07:02"]], cache_results := false,
        snv_file_format_funcs := some [fmt_main] }
      [(["data", "s1.vcf"], .srcBytes ({1} : Finset Nat))]
      predict_one "snv" none [8, 9] 500 10 none
      (fun _ => [("s1", 7)]) (by decide)).2
      [(0, "s1")] (1, "s2") [] (.missingData ["data", "s2.vcf"])
      (by decide)
      (fun q hq => by
        rcases List.mem_singleton.mp hq with rfl
        exact ⟨[("s1", 7)], by decide⟩)
      (by decide)

/-! ## Claim C5 -/

/-- The only outcomes `load_variants` tolerates per sample: success, or the
`IOError`/MissingData it catches. -/
def isOkOrMissingData : Except Err α → Bool
  | .ok _ => true
  | .error (.missingData _) => true
  | _ => false

/-- Characterization of the `load_variants` per-sample loop with caching
disabled: the loop succeeds, keeps the filesystem unchanged, maps exactly the
samples whose resolution succeeded (in order), and reports exactly the
skipped samples in the diagnostic log. -/
theorem load_variants_loop_characterization (c : Cohort) (vt : String)
    (mt : Option String) (ffs : List FormatFunc) (fs : FS)
    (hffs : c.variant_type_to_format_funcs vt = some ffs)
    (hoff : c.cache_results = false) :
    ∀ (l : List (Nat × String)) (acc : List (String × CacheValue)) (log : List String),
      (∀ p ∈ l, isOkOrMissingData (c.load_single_sample_variants fs p.1 ffs vt mt) = true) →
      (∀ p ∈ l, ∀ e ∈ acc, e.1 ≠ p.2) →
      (l.map Prod.snd).Nodup →
      c.load_variants_loop vt mt l fs acc log
        = .ok (acc ++ l.filterMap (fun p =>
              match c.load_single_sample_variants fs p.1 ffs vt mt with
              | .ok (v, _) => some (p.2, v)
              | .error _ => none),
            fs,
            log ++ l.filterMap (fun p =>
              match c.load_single_sample_variants fs p.1 ffs vt mt with
              | .error (.missingData _) => some ("Variants did not exist for " ++ p.2)
              | _ => none)) := by
  intro l
  induction l with
  | nil => intro acc log _ _ _; simp [Cohort.load_variants_loop]
  | cons p rest ih =>
    intro acc log hout hfresh hnodup
    obtain ⟨i, sid⟩ := p
    have hnodup_rest : (rest.map Prod.snd).Nodup := by
      simp only [List.map_cons, List.nodup_cons] at hnodup
      exact hnodup.2
    have hsid_notin : sid ∉ rest.map Prod.snd := by
      simp only [List.map_cons, List.nodup_cons] at hnodup
      exact hnodup.1
    have hout_rest : ∀ p ∈ rest,
        isOkOrMissingData (c.load_single_sample_variants fs p.1 ffs vt mt) = true :=
      fun q hq => hout q (List.mem_cons_of_mem _ hq)
    cases hres : c.load_single_sample_variants fs i ffs vt mt with
    | ok r =>
      obtain ⟨v, fs'⟩ := r
      have hfs : fs' = fs :=
        load_single_sample_variants_fs_off c hoff fs i ffs vt mt v fs' hres
      subst hfs
      simp only [Cohort.load_variants_loop, hffs, hres]
      have hins : dictInsert acc sid v = acc ++ [(sid, v)] :=
        dictInsert_fresh acc sid v
          (fun e he => hfresh (i, sid) (List.mem_cons_self _ _) e he)
      rw [hins]
      have hfresh_rest : ∀ p ∈ rest, ∀ e ∈ acc ++ [(sid, v)], e.1 ≠ p.2 := by
        intro q hq e he
        rcases List.mem_append.mp he with he | he
        · exact hfresh q (List.mem_cons_of_mem _ hq) e he
        · rcases List.mem_singleton.mp he with rfl
          intro habs
          have habs' : sid = q.2 := habs
          apply hsid_notin
          rw [habs']
          exact List.mem_map_of_mem Prod.snd hq
      rw [ih (acc ++ [(sid, v)]) log hout_rest hfresh_rest hnodup_rest]
      simp only [List.filterMap_cons, hres, List.append_assoc, List.singleton_append]
    | error e =>
      have hmiss := hout (i, sid) (List.mem_cons_self _ _)
      rw [hres] at hmiss
      cases e with
      | missingData q =>
        simp only [Cohort.load_variants_loop, hffs, hres]
        rw [ih acc (log ++ ["Variants did not exist for " ++ sid]) hout_rest
            (fun q' hq' e' he' => hfresh q' (List.mem_cons_of_mem _ hq') e' he')
            hnodup_rest]
        simp only [List.filterMap_cons, hres, List.append_assoc, List.singleton_append]
      | invalidArgument m => simp [isOkOrMissingData] at hmiss
      | keyError => simp [isOkOrMissingData] at hmiss
      | indexError => simp [isOkOrMissingData] at hmiss
      | typeError => simp [isOkOrMissingData] at hmiss
      | valueError => simp [isOkOrMissingData] at hmiss
      | deserialization => simp [isOkOrMissingData] at hmiss

/-- C5: cohort-level `load_variants` is partial-failure tolerant.  With a
valid variant type, registered format functions, distinct sample ids and
caching disabled, if every sample either resolves or fails with MissingData
(a missing source file), then `load_variants` does not raise: it returns the
mapping holding exactly the samples that resolved successfully, the untouched
filesystem, and one "did not exist" diagnostic per skipped sample. -/
theorem load_variants_partial_failure_tolerance (c : Cohort) (fs : FS)
    (vt : String) (mt : Option String) (ffs : List FormatFunc)
    (hoff : c.cache_results = false)
    (hvt : vt = "snv" ∨ vt = "indel")
    (hffs : c.variant_type_to_format_funcs vt = some ffs)
    (hnodup : c.sample_ids.Nodup)
    (hout : ∀ p ∈ c.sample_ids.enum,
      isOkOrMissingData (c.load_single_sample_variants fs p.1 ffs vt mt) = true) :
    c.load_variants fs vt mt
      = .ok (c.sample_ids.enum.filterMap (fun p =>
            match c.load_single_sample_variants fs p.1 ffs vt mt with
            | .ok (v, _) => some (p.2, v)
            | .error _ => none),
          fs,
          c.sample_ids.enum.filterMap (fun p =>
            match c.load_single_sample_variants fs p.1 ffs vt mt with
            | .error (.missingData _) => some ("Variants did not exist for " ++ p.2)
            | _ => none)) := by
  unfold Cohort.load_variants
  rw [if_pos hvt]
  have hnodup_enum : (c.sample_ids.enum.map Prod.snd).Nodup := by
    rw [enum_map_snd_eq]; exact hnodup
  rw [load_variants_loop_characterization c vt mt ffs fs hffs hoff
      c.sample_ids.enum [] [] hout (by intro p _ e he; cases he) hnodup_enum]
  simp

/-- Witness for C5: three samples with one format function each, sample s2's
source file absent: the result maps s1 and s3 only, reports s2 as skipped,
and does not raise. -/
theorem load_variants_partial_failure_tolerance_witness :
    ({ data_dir := "data", cache_dir := "cache",
       sample_ids := ["s1", "s2", "s3"],
       normal_bam_ids := ["n1", "n2", "n3"], tumor_bam_ids := ["t1", "t2", "t3"],
       cache_results := false,
       snv_file_format_funcs := some [fmt_main] } : Cohort).load_variants
        [(["data", "s1.vcf"], .srcBytes ({1} : Finset Nat)),
         (["data", "s3.vcf"], .srcBytes ({3} : Finset Nat))]
        "snv" none
      = .ok ([("s1", .varColl (VariantCollection.ofSetList [({1} : Finset Nat)])),
              ("s3", .varColl (VariantCollection.ofSetList [({3} : Finset Nat)]))],
          [(["data", "s1.vcf"], .srcBytes ({1} : Finset Nat)),
           (["data", "s3.vcf"], .srcBytes ({3} : Finset Nat))],
          ["Variants did not exist for s2"]) :=
  (load_variants_partial_failure_tolerance
    { data_dir := "data", cache_dir := "cache",
      sample_ids := ["s1", "s2", "s3"],
      normal_bam_ids := ["n1", "n2", "n3"], tumor_bam_ids := ["t1", "t2", "t3"],
      cache_results := false,
      snv_file_format_funcs := some [fmt_main] }
    [(["data", "s1.vcf"], .srcBytes ({1} : Finset Nat)),
     (["data", "s3.vcf"], .srcBytes ({3} : Finset Nat))]
    "snv" none [fmt_main] rfl (Or.inl rfl) rfl (by decide) (by decide)).trans
    (by decide)
